import Mathlib

/-!
Shallow embedding of the minecraft-AWS-server repository:
the Discord command relay (src/discord_bot/discord_bot.py), the Fargate
infrastructure runner (src/fargate_task/app.py), the key provisioner
(create_private_key in both src/fargate_task/app.py and
src/lambda/lambda_function.py) and the environment manager
(src/lambda_function/utils/env_manager.py).

External effects (Discord API, HTTP requests, SSM, git, the terraform CLI,
the file system) are modelled by explicit state and an event trace; the
control flow of the Python functions is mirrored directly.
-/

namespace MinecraftBot

/-- Outcome of the HTTP POST performed inside send_to_api:
either requests.post raises a RequestException, or it returns a response
whose JSON body is modelled as a string-valued association list. -/
inductive ApiOutcome where
  | requestError (err : String)
  | ok (json : List (String × String))
deriving DecidableEq

/-- A requests.Response, reduced to the JSON body the bot reads. -/
structure Response where
  json : List (String × String)
deriving DecidableEq

/-- Ambient configuration of the bot process: the API_URL environment
variable and the behaviour of the remote API for this invocation. -/
structure BotEnv where
  api_url : Option String
  api : ApiOutcome

/-- Observable Discord / HTTP effects of one command execution.
deadBranch marks the else branch of the response-is-None check
(discord_bot.py line 108). -/
inductive DEvent where
  | sent (id : Nat) (content : String)
  | edited (id : Nat) (content : String)
  | apiSendInvoked (command : String)
  | apiPosted (command : String)
  | savedId (id : Nat)
  | deadBranch
deriving DecidableEq

/-- The Discord channel: message contents by id, and the id the next
channel.send will allocate. -/
structure DWorld where
  messages : Nat → Option String
  nextId : Nat

/-- Persistent bot state: the global bot_message_id and the content of
bot_message_id.txt (written by save_bot_message_id). -/
structure BotState where
  bot_message_id : Option Nat
  saved_file : Option Nat
deriving DecidableEq

/-- message.edit(content=...) on an existing message. -/
def msg_edit (w : DWorld) (i : Nat) (content : String) : DWorld :=
  { w with messages := fun j => if j = i then some content else w.messages j }

/-- context.send(content): allocates a fresh id and stores the message. -/
def msg_send (w : DWorld) (content : String) : Nat × DWorld :=
  (w.nextId,
   { messages := fun j => if j = w.nextId then some content else w.messages j,
     nextId := w.nextId + 1 })

/-- send_to_api from discord_bot.py: returns None when API_URL is unset,
posts otherwise, and returns None when requests raises a RequestException
(the error is only logged). -/
def send_to_api (env : BotEnv) (command : String) : Option Response × List DEvent :=
  match env.api_url with
  | none => (none, [DEvent.apiSendInvoked command])
  | some _ =>
    match env.api with
    | ApiOutcome.requestError _ =>
        (none, [DEvent.apiSendInvoked command, DEvent.apiPosted command])
    | ApiOutcome.ok j =>
        (some ⟨j⟩, [DEvent.apiSendInvoked command, DEvent.apiPosted command])

def in_progress_content (author command : String) : String :=
  "User " ++ author ++ " used `" ++ command ++ "` command..."

def fallback_apology (author : String) : String :=
  "@" ++ author ++ ", we\x27re sorry but we encountered a problem while processing your request. Please try again in a moment.\nIf the problem persists, don\x27t hesitate to reach out to @The Black Mango for assistance."

/-- str(e) for the AttributeError raised by response.json() when
send_to_api returned None. -/
def attr_error_msg : String :=
  "\x27NoneType\x27 object has no attribute \x27json\x27"

def invalid_command_message (command : String) : String :=
  "Invalid command: " ++ command ++ ". Please use a valid command."

/-- str(e) for the discord.NotFound raised by fetch_message on a stale id. -/
def unknown_message_error : String :=
  "404 Not Found (error code: 10008): Unknown Message"

/-- Content written by the unreachable else branch at line 108. -/
def dead_branch_content (command : String) : String :=
  "Error: Couldn\x27t " ++ command ++ " server."

/-- MinecraftCommand.on_error: edit the tracked message when the handle
exists, otherwise send a fresh error message. -/
def on_error (bot_message : Option Nat) (w : DWorld) (msg : String) :
    DWorld × List DEvent :=
  match bot_message with
  | some i =>
      (msg_edit w i ("Error: \n" ++ msg), [DEvent.edited i ("Error: \n" ++ msg)])
  | none =>
      let (i, w2) := msg_send w ("Error: \n" ++ msg)
      (w2, [DEvent.sent i ("Error: \n" ++ msg)])

def VALID_COMMANDS : List String := ["start", "stop", "status"]

/-- Body of the try block after self.bot_message is set to message i
(discord_bot.py lines 100-108): edit to the in-progress notice, call
send_to_api, evaluate response.json().get("BOT_REPLY", fallback) — which
raises AttributeError when response is None — then run the
response-is-None check. The except handler (line 109) maps a raised
exception to on_error. -/
def execute_with_message (env : BotEnv) (st : BotState) (w : DWorld) (i : Nat)
    (author command : String) : BotState × DWorld × List DEvent :=
  let w1 := msg_edit w i (in_progress_content author command)
  let e1 := [DEvent.edited i (in_progress_content author command)]
  let (response, e2) := send_to_api env command
  let bot_reply_eval : Except String String :=
    match response with
    | none => Except.error attr_error_msg
    | some r => Except.ok ((r.json.lookup "BOT_REPLY").getD (fallback_apology author))
  match bot_reply_eval with
  | Except.error e =>
      let (w2, e3) := on_error (some i) w1 e
      (st, w2, e1 ++ e2 ++ e3)
  | Except.ok bot_reply =>
      match response with
      | some _ =>
          (st, msg_edit w1 i bot_reply, e1 ++ e2 ++ [DEvent.edited i bot_reply])
      | none =>
          (st, msg_edit w1 i (dead_branch_content command),
           e1 ++ e2 ++ [DEvent.deadBranch, DEvent.edited i (dead_branch_content command)])

/-- MinecraftCommand.execute (discord_bot.py lines 85-111): reject
invalid commands via on_error with no message handle; otherwise fetch the
tracked message when bot_message_id is set (a stale id raises and lands in
the except handler with bot_message still None), or send a fresh
in-progress message and persist its id, then continue with the shared
body. -/
def execute (env : BotEnv) (st : BotState) (w : DWorld)
    (author command : String) : BotState × DWorld × List DEvent :=
  if VALID_COMMANDS.contains command then
    match st.bot_message_id with
    | some i =>
        match w.messages i with
        | some _ => execute_with_message env st w i author command
        | none =>
            let (w2, evs) := on_error none w unknown_message_error
            (st, w2, evs)
    | none =>
        let (i, w1) := msg_send w (in_progress_content author command)
        let st1 : BotState := { bot_message_id := some i, saved_file := some i }
        let (st2, w2, evs) := execute_with_message env st1 w1 i author command
        (st2, w2, DEvent.sent i (in_progress_content author command) :: DEvent.savedId i :: evs)
  else
    let (w2, evs) := on_error none w (invalid_command_message command)
    (st, w2, evs)

/-- Content of the message the persisted id points at. -/
def final_tracked (st : BotState) (w : DWorld) : Option String :=
  match st.bot_message_id with
  | some i => w.messages i
  | none => none

/-- The persisted id, when set, resolves to an existing message. -/
def tracked_ok (st : BotState) (w : DWorld) : Bool :=
  match st.bot_message_id with
  | some i => (w.messages i).isSome
  | none => true

def is_sent : DEvent → Bool
  | DEvent.sent _ _ => true
  | _ => false

/-- Number of fresh messages created during one execution. -/
def sent_count (t : List DEvent) : Nat := (t.filter is_sent).length

end MinecraftBot

namespace FargateTask

/-- (return_code, stdout, stderr) of one python_terraform invocation. -/
structure TfResult where
  return_code : Int
  stdout : String
  stderr : String
deriving DecidableEq

/-- External world of one fargate run: SSM parameter values by name,
git clone outcomes by repository url, and the results the terraform CLI
would produce for init / apply / destroy. -/
structure FargateEnv where
  ssm : String → String
  clone : String → Except String Unit
  tf_init : TfResult
  tf_apply : TfResult
  tf_destroy : TfResult

/-- Observable effects of one server_handler run. -/
inductive FEvent where
  | ssmGet (name : String)
  | tmpWrite
  | gitClone (url dir branch : String)
  | setEnvVar (name : String)
  | createKey (file_name dir : String)
  | tfInitCalled
  | tfApplyCalled
  | tfDestroyCalled
  | printed (s : String)
deriving DecidableEq

/-- get_ssm_param (app.py lines 21-27). -/
def get_ssm_param (env : FargateEnv) (name : String) : String × List FEvent :=
  (env.ssm name, [FEvent.ssmGet name])

/-- git_clone (app.py lines 78-88): wraps any clone failure in
"Git clone failed:" plus the underlying error. -/
def git_clone (env : FargateEnv) (url dir branch : String) :
    Except String Unit × List FEvent :=
  match env.clone url with
  | Except.ok _ => (Except.ok (), [FEvent.gitClone url dir branch])
  | Except.error e =>
      (Except.error ("Git clone failed:\n" ++ e), [FEvent.gitClone url dir branch])

/-- terraform_init (app.py lines 111-117): non-zero exit raises with the
captured stderr, otherwise returns stdout. -/
def terraform_init (r : TfResult) : Except String String :=
  if r.return_code ≠ 0 then Except.error ("Terraform init failed:\n" ++ r.stderr)
  else Except.ok r.stdout

/-- terraform_apply (app.py lines 119-125). -/
def terraform_apply (r : TfResult) : Except String String :=
  if r.return_code ≠ 0 then Except.error ("Terraform apply failed:\n" ++ r.stderr)
  else Except.ok r.stdout

/-- terraform_destroy (app.py lines 127-133). -/
def terraform_destroy (r : TfResult) : Except String String :=
  if r.return_code ≠ 0 then Except.error ("Terraform destroy failed:\n" ++ r.stderr)
  else Except.ok r.stdout

/-- A fargate environment in which every external call succeeds and
terraform init exits 0. -/
def fargate_env_ok : FargateEnv :=
  ⟨fun _ => "value", fun _ => Except.ok (), ⟨0, "init-out", ""⟩, ⟨0, "", ""⟩, ⟨0, "", ""⟩⟩

def tf_manifest_url : String := "git@github.com:Klyde-Moradeyo/minecraft-AWS-server.git"
def miscellaneous_url : String := "git@github.com:Klyde-Moradeyo/miscellaneous.git"
def tf_mc_infra_manifests : String := "tf_manifests/terraform/minecraft_infrastructure"
def tf_private_key_folder : String :=
  "tf_manifests/terraform/minecraft_infrastructure/private-key"

/-- server_handler (app.py lines 138-190): fetch the two SSM secrets,
write them to temp files, clone both repositories, set the terraform
token (note the source passes the already-fetched token value back to
get_ssm_param as a parameter name), then dispatch on the command.
The terraform_apply and terraform_destroy calls are commented out in the
source; the start branch ends with print("x is positive"). -/
def server_handler (env : FargateEnv) (command : String) :
    Except String Unit × List FEvent :=
  let (ssh_key, ev1) := get_ssm_param env "dark-mango-bot-private-key"
  let (tf_api_key, ev2) := get_ssm_param env "terraform-cloud-user-api"
  let base := ev1 ++ ev2 ++ [FEvent.tmpWrite, FEvent.tmpWrite]
  let _ := ssh_key
  match git_clone env tf_manifest_url "tf_manifests" "main" with
  | (Except.error e, ev3) => (Except.error e, base ++ ev3)
  | (Except.ok _, ev3) =>
    match git_clone env miscellaneous_url "miscellaneous" "main" with
    | (Except.error e, ev4) => (Except.error e, base ++ ev3 ++ ev4)
    | (Except.ok _, ev4) =>
      let (_, ev5) := get_ssm_param env tf_api_key
      let base2 := base ++ ev3 ++ ev4 ++ ev5 ++ [FEvent.setEnvVar "TF_TOKEN_app_terraform_io"]
      if command = "start" then
        let base3 := base2 ++ [FEvent.createKey "terraform_key.pem" tf_private_key_folder,
                               FEvent.tfInitCalled]
        match terraform_init env.tf_init with
        | Except.error e => (Except.error e, base3)
        | Except.ok _ => (Except.ok (), base3 ++ [FEvent.printed "x is positive"])
      else if command = "stop" then
        let base3 := base2 ++ [FEvent.tfInitCalled]
        match terraform_init env.tf_init with
        | Except.error e => (Except.error e, base3)
        | Except.ok _ => (Except.ok (), base3)
      else
        (Except.ok (), base2 ++ [FEvent.printed "error command not found"])

end FargateTask

namespace KeyProvisioner

/-- Serialization encoding argument of private_bytes. -/
inductive Encoding where
  | PEM
deriving DecidableEq

/-- Private-key format argument of private_bytes. -/
inductive PrivateFormat where
  | PKCS8
deriving DecidableEq

/-- Encryption-algorithm argument of private_bytes. -/
inductive EncryptionAlgorithm where
  | NoEncryption
deriving DecidableEq

/-- An RSA private key, abstracted to its generation parameters. -/
structure RSAPrivateKey where
  public_exponent : Nat
  key_size : Nat
deriving DecidableEq

/-- rsa.generate_private_key, abstracted to recording its parameters. -/
def rsa_generate_private_key (public_exponent key_size : Nat) : RSAPrivateKey :=
  ⟨public_exponent, key_size⟩

/-- File contents, symbolic: the bytes produced by private_bytes with the
given arguments. -/
inductive FileContent where
  | private_bytes (key : RSAPrivateKey) (encoding : Encoding)
      (format : PrivateFormat) (algo : EncryptionAlgorithm)
deriving DecidableEq

/-- A file system: path to (content, permission bits). -/
structure FS where
  files : List (String × FileContent × Nat)

def os_path_join (dir file : String) : String := dir ++ "/" ++ file

/-- open(path, "wb") followed by write: creates the file with the default
creation mode. -/
def fs_write (fs : FS) (path : String) (content : FileContent) : FS :=
  ⟨(path, content, 0o644) :: fs.files.filter (fun e => e.1 ≠ path)⟩

/-- os.chmod. -/
def fs_chmod (fs : FS) (path : String) (mode : Nat) : FS :=
  ⟨fs.files.map (fun e => if e.1 = path then (e.1, e.2.1, mode) else e)⟩

/-- Content and permission bits of the file at path, when it exists. -/
def fs_stat (fs : FS) (path : String) : Option (FileContent × Nat) :=
  (fs.files.find? (fun e => e.1 = path)).map (fun e => e.2)

/-- create_private_key (app.py lines 36-65, lambda_function.py lines
29-58): generate a 2048-bit RSA key with public exponent 65537, serialize
it as an unencrypted PKCS8 PEM, write it to directory/file_name, chmod the
file to 0o400 and return its absolute path. os.path.abspath is an
environment-dependent resolver passed in as abspath. -/
def create_private_key (abspath : String → String) (file_name directory : String)
    (fs : FS) : String × FS :=
  let private_key := rsa_generate_private_key 65537 2048
  let private_key_pem :=
    FileContent.private_bytes private_key Encoding.PEM PrivateFormat.PKCS8
      EncryptionAlgorithm.NoEncryption
  let file_path := os_path_join directory file_name
  let fs1 := fs_write fs file_path private_key_pem
  let fs2 := fs_chmod fs1 file_path 0o400
  (abspath file_path, fs2)

end KeyProvisioner

namespace EnvManager

/-- Python exceptions raised by EnvironmentVariables.check_configuration. -/
inductive PyError where
  | typeError
  | missingConfiguration (missing : List String)
deriving DecidableEq

/-- The list literal on the right-hand side of the chained assignment at
env_manager.py lines 21-39. -/
def required_configs_list : List String :=
  ["MC_PORT", "MC_SERVER_IP",
   "CLUSTER", "CONTAINER_NAME", "SUBNET_ID", "SECURITY_GROUP_ID",
   "TASK_DEFINITION_NAME",
   "TF_USER_TOKEN",
   "BOT_COMMAND_NAME",
   "GIT_PRIVATE_KEY",
   "EC2_PRIVATE_KEY"]

/-- The second target of the chained assignment
required_configs = List[str] = [...]: an item assignment on typing.List,
which always raises TypeError (typing aliases do not support item
assignment; the exact message text varies across Python versions). -/
def typing_list_item_assignment : Except PyError Unit :=
  Except.error PyError.typeError

/-- EnvironmentVariables.check_configuration (env_manager.py lines 19-50),
over the process environment given as an association list. The chained
assignment binds required_configs, then performs the List[str] item
assignment, which raises before the membership loop ever runs; the loop
and the MissingConfigurationException raise are the (dead) remainder of
the body. -/
def check_configuration (environ : List (String × String)) : Except PyError Unit := do
  let required_configs := required_configs_list
  typing_list_item_assignment
  let missing_configs :=
    required_configs.filter (fun c => (environ.lookup c).isNone)
  if missing_configs ≠ [] then
    Except.error (PyError.missingConfiguration missing_configs)
  else
    Except.ok ()

/-- Modelled from the spec: the check that the class docstrings and the
spec describe (the chained assignment read as the annotation
required_configs: List[str] = [...]): collect the required names missing
from the environment and raise MissingConfigurationException listing them
when any is missing, otherwise complete normally. -/
def check_configuration_intended (environ : List (String × String)) :
    Except PyError Unit :=
  let missing_configs :=
    required_configs_list.filter (fun c => (environ.lookup c).isNone)
  if missing_configs ≠ [] then
    Except.error (PyError.missingConfiguration missing_configs)
  else
    Except.ok ()

/-- An environment carrying every required variable. -/
def full_environ : List (String × String) :=
  required_configs_list.map (fun c => (c, "set"))

end EnvManager

namespace MinecraftBot

/-- Helper: the shared command body never creates a fresh message. -/
theorem execute_with_message_sent_count (env : BotEnv) (st : BotState)
    (w : DWorld) (i : Nat) (author command : String) :
    sent_count (execute_with_message env st w i author command).2.2 = 0 := by
  rcases env with ⟨url, api⟩
  cases url <;> cases api <;>
    simp [execute_with_message, send_to_api, on_error, sent_count, is_sent]

/-- Helper: the shared command body does not change the persistent state. -/
theorem execute_with_message_state (env : BotEnv) (st : BotState)
    (w : DWorld) (i : Nat) (author command : String) :
    (execute_with_message env st w i author command).1 = st := by
  rcases env with ⟨url, api⟩
  cases url <;> cases api <;>
    simp [execute_with_message, send_to_api, on_error]

/-- Helper: after the shared command body, message i still exists. -/
theorem execute_with_message_keeps (env : BotEnv) (st : BotState)
    (w : DWorld) (i : Nat) (author command : String) :
    ((execute_with_message env st w i author command).2.1.messages i).isSome := by
  rcases env with ⟨url, api⟩
  cases url <;> cases api <;>
    simp [execute_with_message, send_to_api, on_error, msg_edit]

/-- Helper: the shared command body edits message i. -/
theorem execute_with_message_edits (env : BotEnv) (st : BotState)
    (w : DWorld) (i : Nat) (author command : String) :
    ∃ content, DEvent.edited i content ∈ (execute_with_message env st w i author command).2.2 := by
  rcases env with ⟨url, api⟩
  cases url <;> cases api <;>
    exact ⟨in_progress_content author command, by
      simp [execute_with_message, send_to_api, on_error, msg_edit]⟩

/-- Helper: the dead branch marker never appears in the shared body. -/
theorem execute_with_message_no_dead (env : BotEnv) (st : BotState)
    (w : DWorld) (i : Nat) (author command : String) :
    DEvent.deadBranch ∉ (execute_with_message env st w i author command).2.2 := by
  rcases env with ⟨url, api⟩
  cases url <;> cases api <;>
    simp [execute_with_message, send_to_api, on_error]

/-- Claim C2: for every command string not in start / stop / status,
execute sends a single fresh message whose content is the invalid-command
error text, and send_to_api is never invoked. -/
theorem invalid_command_no_api_call (env : BotEnv) (st : BotState)
    (w : DWorld) (author command : String)
    (h : command ∉ VALID_COMMANDS) :
    (execute env st w author command).2.2 =
      [DEvent.sent w.nextId ("Error: \n" ++ invalid_command_message command)] ∧
    ∀ d, DEvent.apiSendInvoked d ∉ (execute env st w author command).2.2 := by
  constructor
  · simp [execute, h, on_error, msg_send]
  · intro d
    simp [execute, h, on_error, msg_send]

/-- Witness for C2 at the concrete command "restart". -/
theorem invalid_command_no_api_call_witness :
    (execute ⟨some "u", ApiOutcome.ok []⟩ ⟨none, none⟩ ⟨fun _ => none, 0⟩ "alice" "restart").2.2 =
      [DEvent.sent 0 ("Error: \n" ++ invalid_command_message "restart")] ∧
    ∀ d, DEvent.apiSendInvoked d ∉
      (execute ⟨some "u", ApiOutcome.ok []⟩ ⟨none, none⟩ ⟨fun _ => none, 0⟩ "alice" "restart").2.2 :=
  invalid_command_no_api_call _ _ _ _ _ (by decide)

/-- Claim C9: the else branch of the response-is-None check at
discord_bot.py line 108 is unreachable: no execution of the command
handler, on any environment, state or input, ever reaches it. -/
theorem none_check_else_unreachable (env : BotEnv) (st : BotState)
    (w : DWorld) (author command : String) :
    DEvent.deadBranch ∉ (execute env st w author command).2.2 := by
  by_cases hv : command ∈ VALID_COMMANDS
  · cases hb : st.bot_message_id with
    | some i =>
      cases hm : w.messages i with
      | some c =>
        simpa [execute, hv, hb, hm] using
          execute_with_message_no_dead env st w i author command
      | none => simp [execute, hv, hb, hm, on_error, msg_send]
    | none =>
      have h2 := execute_with_message_no_dead env
        ⟨some w.nextId, some w.nextId⟩
        ((msg_send w (in_progress_content author command)).2) w.nextId author command
      simp [execute, hv, hb, msg_send] at h2 ⊢
      exact h2
  · simp [execute, hv, on_error, msg_send]

/-- Helper: a valid command on a state whose persisted id resolves runs
the shared command body on that message. -/
theorem execute_resolves (env : BotEnv) (st : BotState) (w : DWorld)
    (author command : String) (i : Nat) (content : String)
    (hv : command ∈ VALID_COMMANDS) (hb : st.bot_message_id = some i)
    (hm : w.messages i = some content) :
    execute env st w author command = execute_with_message env st w i author command := by
  simp [execute, hv, hb, hm]

/-- Helper: either the persisted id is absent, or it resolves. -/
theorem tracked_ok_cases (st : BotState) (w : DWorld)
    (ht : tracked_ok st w = true) :
    st.bot_message_id = none ∨
      ∃ i c, st.bot_message_id = some i ∧ w.messages i = some c := by
  cases hb : st.bot_message_id with
  | none => exact Or.inl rfl
  | some i =>
    right
    unfold tracked_ok at ht
    rw [hb] at ht
    obtain ⟨c, hc⟩ := Option.isSome_iff_exists.mp ht
    exact ⟨i, c, rfl, hc⟩

/-- Claim C1: for an executed valid command whose API call returns a
response, the tracked message ends with the BOT_REPLY field when the
response JSON has one, and with the fallback apology when it does not. -/
theorem bot_reply_reflected (env : BotEnv) (st : BotState) (w : DWorld)
    (author command u : String) (j : List (String × String))
    (hv : command ∈ VALID_COMMANDS)
    (ht : tracked_ok st w = true)
    (hu : env.api_url = some u)
    (hj : env.api = ApiOutcome.ok j) :
    (∀ X, j.lookup "BOT_REPLY" = some X →
       final_tracked (execute env st w author command).1
         (execute env st w author command).2.1 = some X) ∧
    (j.lookup "BOT_REPLY" = none →
       final_tracked (execute env st w author command).1
         (execute env st w author command).2.1 = some (fallback_apology author)) := by
  constructor
  · intro X hX
    rcases tracked_ok_cases st w ht with hb | ⟨i, c, hb, hc⟩
    · simp [execute, hv, hb, execute_with_message, send_to_api, hu, hj,
        msg_send, msg_edit, final_tracked, hX]
    · simp [execute, hv, hb, hc, execute_with_message, send_to_api, hu, hj,
        msg_send, msg_edit, final_tracked, hX]
  · intro hX
    rcases tracked_ok_cases st w ht with hb | ⟨i, c, hb, hc⟩
    · simp [execute, hv, hb, execute_with_message, send_to_api, hu, hj,
        msg_send, msg_edit, final_tracked, hX]
    · simp [execute, hv, hb, hc, execute_with_message, send_to_api, hu, hj,
        msg_send, msg_edit, final_tracked, hX]

/-- Witness for C1: a response with BOT_REPLY "Server is up" and one
without it. -/
theorem bot_reply_reflected_witness :
    (final_tracked
      (execute ⟨some "u", ApiOutcome.ok [("BOT_REPLY", "Server is up")]⟩
        ⟨none, none⟩ ⟨fun _ => none, 0⟩ "alice" "status").1
      (execute ⟨some "u", ApiOutcome.ok [("BOT_REPLY", "Server is up")]⟩
        ⟨none, none⟩ ⟨fun _ => none, 0⟩ "alice" "status").2.1 = some "Server is up") ∧
    (final_tracked
      (execute ⟨some "u", ApiOutcome.ok [("OTHER", "y")]⟩
        ⟨none, none⟩ ⟨fun _ => none, 0⟩ "alice" "status").1
      (execute ⟨some "u", ApiOutcome.ok [("OTHER", "y")]⟩
        ⟨none, none⟩ ⟨fun _ => none, 0⟩ "alice" "status").2.1 =
      some (fallback_apology "alice")) := by
  constructor
  · exact (bot_reply_reflected ⟨some "u", ApiOutcome.ok [("BOT_REPLY", "Server is up")]⟩
      ⟨none, none⟩ ⟨fun _ => none, 0⟩ "alice" "status" "u" [("BOT_REPLY", "Server is up")]
      (by decide) (by decide) rfl rfl).1 "Server is up" (by decide)
  · exact (bot_reply_reflected ⟨some "u", ApiOutcome.ok [("OTHER", "y")]⟩
      ⟨none, none⟩ ⟨fun _ => none, 0⟩ "alice" "status" "u" [("OTHER", "y")]
      (by decide) (by decide) rfl rfl).2 (by decide)

/-- Helper: the error text for the None-response AttributeError is never
the in-progress notice (their first characters differ). -/
theorem error_text_ne_in_progress (author command : String) :
    "Error: \n" ++ attr_error_msg ≠ in_progress_content author command := by
  intro h
  have hd : ("Error: \n" ++ attr_error_msg).data =
      (in_progress_content author command).data := congrArg String.data h
  rw [in_progress_content] at hd
  simp only [String.data_append, attr_error_msg] at hd
  have h2 := congrArg (fun l => l.headD ' ') hd
  simp at h2

/-- Claim C4 (amended): when the HTTP POST raises a RequestException,
send_to_api swallows it and returns None; the tracked message then ends
with the stringified AttributeError raised by response.json() (prefixed
"Error: \n"), not with the network error, and is not left with the
in-progress content. -/
theorem network_error_final_content (env : BotEnv) (st : BotState)
    (w : DWorld) (author command u e : String)
    (hv : command ∈ VALID_COMMANDS)
    (ht : tracked_ok st w = true)
    (hu : env.api_url = some u)
    (he : env.api = ApiOutcome.requestError e) :
    final_tracked (execute env st w author command).1
      (execute env st w author command).2.1 =
      some ("Error: \n" ++ attr_error_msg) ∧
    final_tracked (execute env st w author command).1
      (execute env st w author command).2.1 ≠
      some (in_progress_content author command) := by
  have hfin : final_tracked (execute env st w author command).1
      (execute env st w author command).2.1 =
      some ("Error: \n" ++ attr_error_msg) := by
    rcases tracked_ok_cases st w ht with hb | ⟨i, c, hb, hc⟩
    · simp [execute, hv, hb, execute_with_message, send_to_api, hu, he,
        on_error, msg_send, msg_edit, final_tracked]
    · simp [execute, hv, hb, hc, execute_with_message, send_to_api, hu, he,
        on_error, msg_send, msg_edit, final_tracked]
  refine ⟨hfin, ?_⟩
  rw [hfin]
  intro hcontra
  exact error_text_ne_in_progress author command (Option.some.inj hcontra)

/-- Witness for C4's amended statement at a concrete refused connection. -/
theorem network_error_final_content_witness :
    final_tracked
      (execute ⟨some "u", ApiOutcome.requestError "Connection refused"⟩
        ⟨none, none⟩ ⟨fun _ => none, 0⟩ "alice" "start").1
      (execute ⟨some "u", ApiOutcome.requestError "Connection refused"⟩
        ⟨none, none⟩ ⟨fun _ => none, 0⟩ "alice" "start").2.1 =
      some ("Error: \n" ++ attr_error_msg) ∧
    final_tracked
      (execute ⟨some "u", ApiOutcome.requestError "Connection refused"⟩
        ⟨none, none⟩ ⟨fun _ => none, 0⟩ "alice" "start").1
      (execute ⟨some "u", ApiOutcome.requestError "Connection refused"⟩
        ⟨none, none⟩ ⟨fun _ => none, 0⟩ "alice" "start").2.1 ≠
      some (in_progress_content "alice" "start") :=
  network_error_final_content ⟨some "u", ApiOutcome.requestError "Connection refused"⟩
    ⟨none, none⟩ ⟨fun _ => none, 0⟩ "alice" "start" "u" "Connection refused"
    (by decide) (by decide) rfl rfl

/-- Counterexample for C4 as stated: with the network error
"Connection refused", the tracked message's final content is the
stringified AttributeError, which is not the stringified network error
under either reading (bare or with the "Error:" prefix). -/
theorem network_error_counterexample :
    final_tracked
      (execute ⟨some "u", ApiOutcome.requestError "Connection refused"⟩
        ⟨none, none⟩ ⟨fun _ => none, 0⟩ "alice" "start").1
      (execute ⟨some "u", ApiOutcome.requestError "Connection refused"⟩
        ⟨none, none⟩ ⟨fun _ => none, 0⟩ "alice" "start").2.1 =
      some "Error: \n\x27NoneType\x27 object has no attribute \x27json\x27" ∧
    ("Error: \n\x27NoneType\x27 object has no attribute \x27json\x27" : String) ≠
      "Connection refused" ∧
    ("Error: \n\x27NoneType\x27 object has no attribute \x27json\x27" : String) ≠
      "Error: \nConnection refused" := by
  refine ⟨?_, by decide, by decide⟩
  decide

/-- Claim C3: starting with no persisted message id, the first valid
command creates exactly one fresh message and persists its identifier
(both in the global and in bot_message_id.txt); a second valid command
creates no fresh message, edits the message with that same identifier,
and leaves the persisted identifier unchanged. -/
theorem single_status_message (env1 env2 : BotEnv) (st : BotState)
    (w : DWorld) (a1 a2 c1 c2 : String)
    (h0 : st.bot_message_id = none)
    (hv1 : c1 ∈ VALID_COMMANDS)
    (hv2 : c2 ∈ VALID_COMMANDS) :
    sent_count (execute env1 st w a1 c1).2.2 = 1 ∧
    (execute env1 st w a1 c1).1.bot_message_id = some w.nextId ∧
    (execute env1 st w a1 c1).1.saved_file = some w.nextId ∧
    sent_count (execute env2 (execute env1 st w a1 c1).1
      (execute env1 st w a1 c1).2.1 a2 c2).2.2 = 0 ∧
    (execute env2 (execute env1 st w a1 c1).1
      (execute env1 st w a1 c1).2.1 a2 c2).1.bot_message_id = some w.nextId ∧
    (execute env2 (execute env1 st w a1 c1).1
      (execute env1 st w a1 c1).2.1 a2 c2).1.saved_file = some w.nextId ∧
    (∃ content, DEvent.edited w.nextId content ∈
      (execute env2 (execute env1 st w a1 c1).1
        (execute env1 st w a1 c1).2.1 a2 c2).2.2) ∧
    (∀ (env3 : BotEnv) (st3 : BotState) (w3 : DWorld) (a3 c3 : String),
      c3 ∈ VALID_COMMANDS → st3.bot_message_id = some w.nextId →
      (w3.messages w.nextId).isSome = true →
      sent_count (execute env3 st3 w3 a3 c3).2.2 = 0 ∧
      (execute env3 st3 w3 a3 c3).1 = st3 ∧
      ((execute env3 st3 w3 a3 c3).2.1.messages w.nextId).isSome = true) := by
  set w1 := (msg_send w (in_progress_content a1 c1)).2 with hw1
  set st1 : BotState := ⟨some w.nextId, some w.nextId⟩ with hst1
  have hrun1 : execute env1 st w a1 c1 =
      ((execute_with_message env1 st1 w1 w.nextId a1 c1).1,
       (execute_with_message env1 st1 w1 w.nextId a1 c1).2.1,
       DEvent.sent w.nextId (in_progress_content a1 c1) ::
         DEvent.savedId w.nextId ::
         (execute_with_message env1 st1 w1 w.nextId a1 c1).2.2) := by
    simp [execute, hv1, h0, msg_send, hst1, hw1]
  have hstate1 : (execute env1 st w a1 c1).1 = st1 := by
    rw [hrun1]
    exact execute_with_message_state env1 st1 w1 w.nextId a1 c1
  have hcount1 : sent_count (execute env1 st w a1 c1).2.2 = 1 := by
    rw [hrun1]
    simp [sent_count, is_sent]
    have := execute_with_message_sent_count env1 st1 w1 w.nextId a1 c1
    simpa [sent_count] using this
  have hkeep : ((execute env1 st w a1 c1).2.1.messages w.nextId).isSome := by
    rw [hrun1]
    exact execute_with_message_keeps env1 st1 w1 w.nextId a1 c1
  obtain ⟨c, hc⟩ := Option.isSome_iff_exists.mp hkeep
  have hrun2 : execute env2 (execute env1 st w a1 c1).1
      (execute env1 st w a1 c1).2.1 a2 c2 =
      execute_with_message env2 st1 (execute env1 st w a1 c1).2.1 w.nextId a2 c2 := by
    rw [hstate1]
    exact execute_resolves env2 st1 _ a2 c2 w.nextId c hv2 rfl hc
  refine ⟨hcount1, by rw [hstate1], by rw [hstate1], ?_, ?_, ?_, ?_, ?_⟩
  · rw [hrun2]
    exact execute_with_message_sent_count env2 st1 _ w.nextId a2 c2
  · rw [hrun2, execute_with_message_state env2 st1 _ w.nextId a2 c2]
  · rw [hrun2, execute_with_message_state env2 st1 _ w.nextId a2 c2]
  · rw [hrun2]
    exact execute_with_message_edits env2 st1 _ w.nextId a2 c2
  · intro env3 st3 w3 a3 c3 hv3 hb3 hm3
    obtain ⟨c4, hc4⟩ := Option.isSome_iff_exists.mp hm3
    have hrun3 := execute_resolves env3 st3 w3 a3 c3 w.nextId c4 hv3 hb3 hc4
    refine ⟨?_, ?_, ?_⟩
    · rw [hrun3]
      exact execute_with_message_sent_count env3 st3 w3 w.nextId a3 c3
    · rw [hrun3]
      exact execute_with_message_state env3 st3 w3 w.nextId a3 c3
    · rw [hrun3]
      exact execute_with_message_keeps env3 st3 w3 w.nextId a3 c3

/-- Witness for C3 with two concrete status commands. -/
theorem single_status_message_witness :
    sent_count (execute ⟨some "u", ApiOutcome.ok [("BOT_REPLY", "up")]⟩
      ⟨none, none⟩ ⟨fun _ => none, 7⟩ "alice" "status").2.2 = 1 ∧
    (execute ⟨some "u", ApiOutcome.ok [("BOT_REPLY", "up")]⟩
      ⟨none, none⟩ ⟨fun _ => none, 7⟩ "alice" "status").1.bot_message_id = some 7 ∧
    (execute ⟨some "u", ApiOutcome.ok [("BOT_REPLY", "up")]⟩
      ⟨none, none⟩ ⟨fun _ => none, 7⟩ "alice" "status").1.saved_file = some 7 ∧
    sent_count (execute ⟨some "u", ApiOutcome.ok [("BOT_REPLY", "up")]⟩
      (execute ⟨some "u", ApiOutcome.ok [("BOT_REPLY", "up")]⟩
        ⟨none, none⟩ ⟨fun _ => none, 7⟩ "alice" "status").1
      (execute ⟨some "u", ApiOutcome.ok [("BOT_REPLY", "up")]⟩
        ⟨none, none⟩ ⟨fun _ => none, 7⟩ "alice" "status").2.1 "bob" "status").2.2 = 0 ∧
    (execute ⟨some "u", ApiOutcome.ok [("BOT_REPLY", "up")]⟩
      (execute ⟨some "u", ApiOutcome.ok [("BOT_REPLY", "up")]⟩
        ⟨none, none⟩ ⟨fun _ => none, 7⟩ "alice" "status").1
      (execute ⟨some "u", ApiOutcome.ok [("BOT_REPLY", "up")]⟩
        ⟨none, none⟩ ⟨fun _ => none, 7⟩ "alice" "status").2.1 "bob" "status").1.bot_message_id = some 7 ∧
    (execute ⟨some "u", ApiOutcome.ok [("BOT_REPLY", "up")]⟩
      (execute ⟨some "u", ApiOutcome.ok [("BOT_REPLY", "up")]⟩
        ⟨none, none⟩ ⟨fun _ => none, 7⟩ "alice" "status").1
      (execute ⟨some "u", ApiOutcome.ok [("BOT_REPLY", "up")]⟩
        ⟨none, none⟩ ⟨fun _ => none, 7⟩ "alice" "status").2.1 "bob" "status").1.saved_file = some 7 ∧
    (∃ content, DEvent.edited 7 content ∈
      (execute ⟨some "u", ApiOutcome.ok [("BOT_REPLY", "up")]⟩
        (execute ⟨some "u", ApiOutcome.ok [("BOT_REPLY", "up")]⟩
          ⟨none, none⟩ ⟨fun _ => none, 7⟩ "alice" "status").1
        (execute ⟨some "u", ApiOutcome.ok [("BOT_REPLY", "up")]⟩
          ⟨none, none⟩ ⟨fun _ => none, 7⟩ "alice" "status").2.1 "bob" "status").2.2) ∧
    (∀ (env3 : BotEnv) (st3 : BotState) (w3 : DWorld) (a3 c3 : String),
      c3 ∈ VALID_COMMANDS → st3.bot_message_id = some 7 →
      (w3.messages 7).isSome = true →
      sent_count (execute env3 st3 w3 a3 c3).2.2 = 0 ∧
      (execute env3 st3 w3 a3 c3).1 = st3 ∧
      ((execute env3 st3 w3 a3 c3).2.1.messages 7).isSome = true) :=
  single_status_message ⟨some "u", ApiOutcome.ok [("BOT_REPLY", "up")]⟩
    ⟨some "u", ApiOutcome.ok [("BOT_REPLY", "up")]⟩
    ⟨none, none⟩ ⟨fun _ => none, 7⟩ "alice" "bob" "status" "status"
    rfl (by decide) (by decide)

end MinecraftBot

namespace FargateTask

/-- Claim C6: a non-zero exit code from terraform init makes the run fail
with an exception carrying the captured stderr, and neither terraform
apply nor terraform destroy is invoked in that run. -/
theorem init_failure_blocks_mutation (env : FargateEnv) (command : String)
    (hrc : env.tf_init.return_code ≠ 0)
    (hcmd : command = "start" ∨ command = "stop")
    (h1 : env.clone tf_manifest_url = Except.ok ())
    (h2 : env.clone miscellaneous_url = Except.ok ()) :
    (server_handler env command).1 =
      Except.error ("Terraform init failed:\n" ++ env.tf_init.stderr) ∧
    FEvent.tfApplyCalled ∉ (server_handler env command).2 ∧
    FEvent.tfDestroyCalled ∉ (server_handler env command).2 := by
  rcases hcmd with hcmd | hcmd <;> subst hcmd <;>
    refine ⟨?_, ?_, ?_⟩ <;>
    simp [server_handler, get_ssm_param, git_clone, h1, h2, terraform_init, hrc]

/-- Witness for C6: terraform init exits with code 1 and stderr "boom". -/
theorem init_failure_blocks_mutation_witness :
    (server_handler
      ⟨fun _ => "v", fun _ => Except.ok (), ⟨1, "", "boom"⟩, ⟨0, "", ""⟩, ⟨0, "", ""⟩⟩
      "start").1 = Except.error ("Terraform init failed:\n" ++ "boom") ∧
    FEvent.tfApplyCalled ∉ (server_handler
      ⟨fun _ => "v", fun _ => Except.ok (), ⟨1, "", "boom"⟩, ⟨0, "", ""⟩, ⟨0, "", ""⟩⟩
      "start").2 ∧
    FEvent.tfDestroyCalled ∉ (server_handler
      ⟨fun _ => "v", fun _ => Except.ok (), ⟨1, "", "boom"⟩, ⟨0, "", ""⟩, ⟨0, "", ""⟩⟩
      "start").2 := by
  have h := init_failure_blocks_mutation
    ⟨fun _ => "v", fun _ => Except.ok (), ⟨1, "", "boom"⟩, ⟨0, "", ""⟩, ⟨0, "", ""⟩⟩
    "start" (by decide) (Or.inl rfl) rfl rfl
  exact h

/-- Claim C5 (code evaluated at the failing input): a "start" run in
which every external call succeeds and terraform init exits 0 completes
without error, runs init, prints the leftover debug line, and never
invokes terraform apply — the apply call at app.py line 184 is commented
out, so the mutating step of the documented state machine never runs. -/
theorem start_run_never_applies :
    (server_handler fargate_env_ok "start").1 = Except.ok () ∧
    FEvent.tfInitCalled ∈ (server_handler fargate_env_ok "start").2 ∧
    FEvent.tfApplyCalled ∉ (server_handler fargate_env_ok "start").2 ∧
    FEvent.tfDestroyCalled ∉ (server_handler fargate_env_ok "start").2 ∧
    FEvent.printed "x is positive" ∈ (server_handler fargate_env_ok "start").2 := by
  refine ⟨rfl, ?_, ?_, ?_, ?_⟩ <;> decide

/-- Claim C10: for any command other than "start" and "stop" (such as
"status"), server_handler still fetches the SSM secrets and clones both
repositories, invokes no terraform operation, prints
"error command not found" and returns normally. -/
theorem unknown_command_no_tf_no_error (env : FargateEnv) (command : String)
    (hc1 : command ≠ "start") (hc2 : command ≠ "stop")
    (h1 : env.clone tf_manifest_url = Except.ok ())
    (h2 : env.clone miscellaneous_url = Except.ok ()) :
    (server_handler env command).1 = Except.ok () ∧
    FEvent.ssmGet "dark-mango-bot-private-key" ∈ (server_handler env command).2 ∧
    FEvent.ssmGet "terraform-cloud-user-api" ∈ (server_handler env command).2 ∧
    FEvent.gitClone tf_manifest_url "tf_manifests" "main" ∈ (server_handler env command).2 ∧
    FEvent.gitClone miscellaneous_url "miscellaneous" "main" ∈ (server_handler env command).2 ∧
    FEvent.tfInitCalled ∉ (server_handler env command).2 ∧
    FEvent.tfApplyCalled ∉ (server_handler env command).2 ∧
    FEvent.tfDestroyCalled ∉ (server_handler env command).2 ∧
    FEvent.printed "error command not found" ∈ (server_handler env command).2 := by
  refine ⟨?_, ?_, ?_, ?_, ?_, ?_, ?_, ?_, ?_⟩ <;>
    simp [server_handler, get_ssm_param, git_clone, h1, h2, hc1, hc2]

/-- Witness for C10 at the concrete command "status". -/
theorem unknown_command_no_tf_no_error_witness :
    (server_handler fargate_env_ok "status").1 = Except.ok () ∧
    FEvent.ssmGet "dark-mango-bot-private-key" ∈ (server_handler fargate_env_ok "status").2 ∧
    FEvent.ssmGet "terraform-cloud-user-api" ∈ (server_handler fargate_env_ok "status").2 ∧
    FEvent.gitClone tf_manifest_url "tf_manifests" "main" ∈ (server_handler fargate_env_ok "status").2 ∧
    FEvent.gitClone miscellaneous_url "miscellaneous" "main" ∈ (server_handler fargate_env_ok "status").2 ∧
    FEvent.tfInitCalled ∉ (server_handler fargate_env_ok "status").2 ∧
    FEvent.tfApplyCalled ∉ (server_handler fargate_env_ok "status").2 ∧
    FEvent.tfDestroyCalled ∉ (server_handler fargate_env_ok "status").2 ∧
    FEvent.printed "error command not found" ∈ (server_handler fargate_env_ok "status").2 :=
  unknown_command_no_tf_no_error fargate_env_ok "status"
    (by decide) (by decide) rfl rfl

end FargateTask

namespace KeyProvisioner

/-- Claim C7: create_private_key always generates a 2048-bit RSA key with
public exponent 65537, writes it to directory/file_name as an unencrypted
PKCS8 PEM whose final permission bits are 0o400, and returns the absolute
path of that file. -/
theorem create_private_key_contract (abspath : String → String)
    (file_name directory : String) (fs : FS) :
    fs_stat (create_private_key abspath file_name directory fs).2
        (os_path_join directory file_name) =
      some (FileContent.private_bytes (rsa_generate_private_key 65537 2048)
        Encoding.PEM PrivateFormat.PKCS8 EncryptionAlgorithm.NoEncryption, 0o400) ∧
    (create_private_key abspath file_name directory fs).1 =
      abspath (os_path_join directory file_name) := by
  constructor
  · simp [create_private_key, fs_write, fs_chmod, fs_stat]
  · rfl

end KeyProvisioner

namespace EnvManager

/-- Claim C8 (code evaluated at the failing input): check_configuration
raises TypeError on every environment — including one where all required
variables are present — because the chained assignment
required_configs = List[str] = [...] performs an item assignment on
typing.List before the membership check can run; the intended reading
(the annotation with a colon) does satisfy the claim, completing on a
full environment and raising MissingConfigurationException listing the
missing names otherwise. -/
theorem check_configuration_always_raises :
    check_configuration full_environ = Except.error PyError.typeError ∧
    (∀ environ, check_configuration environ = Except.error PyError.typeError) ∧
    check_configuration_intended full_environ = Except.ok () ∧
    check_configuration_intended [] =
      Except.error (PyError.missingConfiguration required_configs_list) := by
  refine ⟨rfl, fun environ => rfl, rfl, rfl⟩

end EnvManager
